import Mathlib

/-!
Shallow embedding of the chargeback case-management datastore
(`src/agents/setup_database.py`, `src/agents/seed_data.py`,
`src/agents/view_data.py`).

Conventions of the embedding:
* Monetary amounts and fraud scores are DECIMAL(10,2)/DECIMAL(5,2) columns;
  they are represented as integers in hundredths (cents, score points x 100).
* TIMESTAMP columns are opaque strings (their values never matter to a
  verified property); nullable columns are `Option`.
* The SQLite file is `Option DB` (`none` = the database file does not exist).
* SQLite enforces declared FOREIGN KEY clauses only on connections that have
  executed `PRAGMA foreign_keys = ON`; each insert operation therefore takes
  the connection's pragma flag as an argument.
* Randomness consumed by the generator (`random_date`, `random.randint`,
  `random.choice`, `random.uniform`) is modelled by an `Oracle` of draw
  functions; bounded draws keep their bounds in the type (`randint(5,10)`
  becomes `5 + Fin 6`).  Free-text blobs that no verified property inspects
  (JSON event payloads, prose descriptions and notes) are likewise supplied
  by the oracle as opaque strings.
-/

namespace Chargebacks

/-- Row of the `customers` table (setup_database.py lines 34-44). -/
structure Customer where
  customer_id : String
  name : String
  email : String
  region : String
  created_at : String
  total_chargebacks : Nat
  total_refunds : Int
deriving Repr, DecidableEq

/-- Row of the `merchants` table (setup_database.py lines 48-56). -/
structure Merchant where
  merchant_id : String
  merchant_name : String
  acquiring_bank : String
  win_rate : Int
  created_at : String
deriving Repr, DecidableEq

/-- The velocity snapshot dict that seed_data.py builds and passes through
`json.dumps` into the `velocity_data` TEXT column; modelled structurally. -/
structure VelocityData where
  cards_last_24h : Nat
  same_ip_count : Nat
  transactions_last_week : Nat
deriving Repr, DecidableEq

/-- Row of the `transactions` table (setup_database.py lines 60-94). -/
structure Transaction where
  transaction_id : String
  customer_id : String
  merchant_id : String
  amount : Int
  currency : String
  payment_method : String
  card_last_4 : String
  transaction_date : String
  status : String
  avs_check : String
  cvv_check : String
  three_ds_used : Bool
  auth_code : String
  ip_address : String
  device_fingerprint : String
  fraud_score : Int
  risk_level : String
  velocity_flag : Bool
  velocity_data : VelocityData
  risk_assessed_at : String
deriving Repr, DecidableEq

/-- Row of the `chargebacks` table (setup_database.py lines 98-124).  The
schema has a PRIMARY KEY on `chargeback_id`, NOT NULL and a FOREIGN KEY on
`transaction_id`, and no UNIQUE constraint on `transaction_id` (only the
non-unique index `idx_chargebacks_transaction`). -/
structure ChargebackRow where
  chargeback_id : String
  transaction_id : String
  dispute_date : String
  reason_code : String
  dispute_type : String
  issuing_bank : String
  chargeback_amount : Int
  analyst_id : String
  status : String
  opened_at : String
  closed_at : Option String
  outcome : Option String
  retrieval_request_date : Option String
  response_deadline : String
  notes : String
deriving Repr, DecidableEq

/-- Row of the `case_events` table (setup_database.py lines 128-139); the
AUTOINCREMENT surrogate key is the list position and is not modelled. -/
structure CaseEvent where
  chargeback_id : String
  event_type : String
  event_date : String
  event_data : String
  description : String
deriving Repr, DecidableEq

/-- The five tables of the store. -/
structure DB where
  customers : List Customer
  merchants : List Merchant
  transactions : List Transaction
  chargebacks : List ChargebackRow
  case_events : List CaseEvent
deriving Repr, DecidableEq

/-- The freshly initialized store: all five tables empty. -/
def emptyDB : DB := ⟨[], [], [], [], []⟩

/-- Constraint-violation errors surfaced by the storage layer. -/
inductive SqlError
  | pkViolation
  | fkViolation
deriving Repr, DecidableEq

/-- setup_database.py line 30 executes `PRAGMA foreign_keys = ON` on the
initializer's connection. -/
def setupConnForeignKeys : Bool := true

/-- seed_data.py line 36 opens a fresh connection and never executes
`PRAGMA foreign_keys = ON`; SQLite's per-connection default leaves the
declared FOREIGN KEY clauses unenforced on the generator's connection. -/
def seedConnForeignKeys : Bool := false

/-- INSERT INTO transactions on a connection whose foreign-keys pragma is
`fk`: the PRIMARY KEY is always enforced, the FOREIGN KEY references to
`customers` and `merchants` only when `fk = true`.  An error aborts the
single statement, leaving the store unchanged. -/
def insertTransaction (fk : Bool) (db : DB) (t : Transaction) :
    Except SqlError DB :=
  if db.transactions.any (fun u => u.transaction_id = t.transaction_id) then
    .error .pkViolation
  else if fk &&
      !(db.customers.any (fun c => c.customer_id = t.customer_id) &&
        db.merchants.any (fun m => m.merchant_id = t.merchant_id)) then
    .error .fkViolation
  else
    .ok { db with transactions := db.transactions ++ [t] }

/-- INSERT INTO chargebacks: PRIMARY KEY on `chargeback_id` always enforced,
FOREIGN KEY to `transactions` only when `fk = true`.  The schema declares no
uniqueness of `transaction_id`, so no duplicate-dispute check exists here. -/
def insertChargeback (fk : Bool) (db : DB) (c : ChargebackRow) :
    Except SqlError DB :=
  if db.chargebacks.any (fun x => x.chargeback_id = c.chargeback_id) then
    .error .pkViolation
  else if fk &&
      !(db.transactions.any (fun t => t.transaction_id = c.transaction_id)) then
    .error .fkViolation
  else
    .ok { db with chargebacks := db.chargebacks ++ [c] }

/-- `init_database` (setup_database.py lines 15-30): if the database file
exists it is unlinked with no confirmation step (lines 19-21:
`if DB_PATH.exists(): DB_PATH.unlink()`), then a fresh store with the five
empty tables is created.  The operation has no failure path for an existing
store. -/
def init_database (fs : Option DB) : Except String DB :=
  match fs with
  | some _ => .ok emptyDB
  | none => .ok emptyDB

/-- The per-table COUNT(*) row counts printed by view_data.py lines 37-42. -/
def tableCounts (db : DB) : List (String × Nat) :=
  [("customers", db.customers.length),
   ("merchants", db.merchants.length),
   ("transactions", db.transactions.length),
   ("chargebacks", db.chargebacks.length),
   ("case_events", db.case_events.length)]

/-- SQL SUM over a column: NULL (here `none`) when there are no rows. -/
def sqlSum (l : List Int) : Option Int :=
  match l with
  | [] => none
  | _ => some l.sum

/-- SQL AVG over a column: NULL when there are no rows (the exact quotient is
approximated by integer division; no verified property inspects it). -/
def sqlAvg (l : List Int) : Option Int :=
  match l with
  | [] => none
  | _ => some (l.sum / (l.length : Int))

/-- The transaction aggregate statistics of view_data.py lines 81-91. -/
structure TxSummary where
  total : Nat
  unique_customers : Nat
  unique_merchants : Nat
  total_amount : Option Int
  avg_amount : Option Int
  min_amount : Option Int
  max_amount : Option Int
deriving Repr, DecidableEq

def txSummary (db : DB) : TxSummary :=
  { total := db.transactions.length
    unique_customers := (db.transactions.map (fun t => t.customer_id)).dedup.length
    unique_merchants := (db.transactions.map (fun t => t.merchant_id)).dedup.length
    total_amount := sqlSum (db.transactions.map (fun t => t.amount))
    avg_amount := sqlAvg (db.transactions.map (fun t => t.amount))
    min_amount := (db.transactions.map (fun t => t.amount)).min?
    max_amount := (db.transactions.map (fun t => t.amount)).max? }

/-- The chargeback aggregate statistics of view_data.py lines 131-140. -/
structure CbSummary where
  total : Nat
  openCount : Nat
  under_review : Nat
  won : Nat
  lost : Nat
  total_amount : Option Int
deriving Repr, DecidableEq

def cbSummary (db : DB) : CbSummary :=
  { total := db.chargebacks.length
    openCount := db.chargebacks.countP (fun c => c.status = "open")
    under_review := db.chargebacks.countP (fun c => c.status = "under_review")
    won := db.chargebacks.countP (fun c => c.status = "won")
    lost := db.chargebacks.countP (fun c => c.status = "lost")
    total_amount := sqlSum (db.chargebacks.map (fun c => c.chargeback_amount)) }

/-- Event-type frequency counts (view_data.py lines 184-191; the descending
ORDER BY affects presentation only and no claim depends on it). -/
def eventTypeFreq (db : DB) : List (String × Nat) :=
  (db.case_events.map (fun e => e.event_type)).dedup.map
    (fun ty => (ty, db.case_events.countP (fun e => e.event_type = ty)))

/-- Risk-level aggregate statistics (view_data.py lines 221-231):
(risk_level, count, average fraud score, total amount) per distinct level. -/
def riskStats (db : DB) : List (String × Nat × Option Int × Option Int) :=
  (db.transactions.map (fun t => t.risk_level)).dedup.map
    (fun lv =>
      let grp := db.transactions.filter (fun t => t.risk_level = lv)
      (lv, grp.length, sqlAvg (grp.map (fun t => t.fraud_score)),
       sqlSum (grp.map (fun t => t.amount))))

/-- Python money formatting `f"${x:,.2f}"` applied to a fetched SQL value:
formatting the `None` that SQLite returns for an aggregate over zero rows
raises `TypeError: unsupported format string passed to NoneType.__format__`
(view_data.py lines 96-99 and 147). -/
def fmtMoney : Option Int → Except String String
  | none => .error "unsupported format string passed to NoneType.__format__"
  | some a => .ok (toString a)

/-- `view_database` (view_data.py): absent store prints a message and
returns; otherwise the report runs the aggregates in source order.  The
tabulated listings cannot fail (they are guarded by emptiness checks), so
the model keeps only the row counts and the aggregate/formatting steps whose
order determines which failure surfaces first. -/
def view_database (fs : Option DB) : Except String (List String) :=
  match fs with
  | none => .ok ["Database not found"]
  | some db => do
    let counts := tableCounts db
    let ts := txSummary db
    let totalLine ← fmtMoney ts.total_amount
    let avgLine ← fmtMoney ts.avg_amount
    let minLine ← fmtMoney ts.min_amount
    let maxLine ← fmtMoney ts.max_amount
    let cs := cbSummary db
    let cbTotalLine ← fmtMoney cs.total_amount
    let freq := eventTypeFreq db
    let rs := riskStats db
    .ok [toString (counts.map (fun p => p.2)), toString ts.total,
         totalLine, avgLine, minLine, maxLine, toString cs.total,
         cbTotalLine, toString freq.length, toString rs.length]

/-- Randomness consumed by `seed_database`, one field per kind of draw.
Bounded draws carry their bound in the type: `random.randint(5, 10)` is
`5 + Fin 6`, `random.choice` over an n-element literal list is `Fin n`,
`random.randint(1, 3)` is `1 + Fin 3`.  Dates (`random_date`), generated
codes and the free-text blobs no verified property inspects (JSON payloads,
descriptions, notes) are opaque strings drawn per call site. -/
structure Oracle where
  numNormalTx : Fin 7 → Fin 6
  merchCreated : Fin 4 → String
  custCreated : Fin 7 → String
  normalMerchant : Nat → Fin 4
  normalAmount : Nat → Int
  normalDate : Nat → String
  normalScore : Nat → Int
  normalTxWeek : Nat → Fin 3
  normalMethod : Nat → Fin 3
  normalCard : Nat → String
  normalAvs : Nat → Fin 3
  normalCvv : Nat → Fin 2
  normalThreeDs : Nat → Bool
  normalAuth : Nat → String
  normalIp : Nat → String
  normalDevice : Nat → String
  caseTxDate : Fin 23 → String
  caseRiskDate : Fin 23 → String
  caseDisputeDate : Fin 23 → String
  caseOpenedAt : Fin 23 → String
  caseClosedAt : Fin 23 → String
  caseDeadline : Fin 23 → String
  caseNotes : Fin 23 → String
  eventDate : Fin 23 → Nat → String
  eventData : Fin 23 → Nat → String
  eventDesc : Fin 23 → Nat → String

/-- Python `f"{n:04d}"`: decimal digits left-padded with zeros to width 4
(wider numbers keep all their digits). -/
def pad4 (n : Nat) : String :=
  let s := toString n
  String.mk (List.replicate (4 - s.length) '0') ++ s

/-- `generate_id` (seed_data.py lines 23-25): `f"{prefix}_{num:04d}"`. -/
def generate_id (p : String) (num : Nat) : String := p ++ "_" ++ pad4 num

/-- The `merchants` fixture list (seed_data.py lines 52-57). -/
def merchants_data : List (String × String × String × Int) :=
  [("merch_001", "TechStore Pro", "Chase Bank", 7250),
   ("merch_002", "FashionHub", "Bank of America", 6830),
   ("merch_003", "Electronics Plus", "Wells Fargo", 7510),
   ("merch_004", "Home Essentials", "Citi Bank", 7080)]

/-- The `customers_data` fixture list (seed_data.py lines 70-78). -/
def customers_data : List (String × String × String × String) :=
  [("cust_001", "Sarah Johnson", "sarah.j@email.com", "US"),
   ("cust_002", "Michael Chen", "m.chen@email.com", "US"),
   ("cust_003", "Emma Williams", "emma.w@email.com", "US"),
   ("cust_004", "David Rodriguez", "d.rodriguez@email.com", "US"),
   ("cust_005", "Lisa Anderson", "lisa.a@email.com", "US"),
   ("cust_006", "James Taylor", "j.taylor@email.com", "US"),
   ("cust_007", "Maria Garcia", "maria.g@email.com", "US")]

/-- The merchant-id list passed to `random.choice` (seed_data.py line 95). -/
def merchant_ids : List String :=
  ["merch_001", "merch_002", "merch_003", "merch_004"]

def merchantChoice (i : Fin 4) : String := merchant_ids.get ⟨i.val, i.isLt⟩

def payChoice (i : Fin 3) : String :=
  ["visa", "mastercard", "amex"].get ⟨i.val, i.isLt⟩

def avsChoice (i : Fin 3) : String := ["Y", "N", "Z"].get ⟨i.val, i.isLt⟩

def cvvChoice (i : Fin 2) : String := ["Y", "N"].get ⟨i.val, i.isLt⟩

/-- Rows inserted into `merchants` (seed_data.py lines 59-65). -/
def seedMerchants (o : Oracle) : List Merchant :=
  (List.finRange 4).map (fun i =>
    let md := merchants_data.get ⟨i.val, i.isLt⟩
    { merchant_id := md.1, merchant_name := md.2.1,
      acquiring_bank := md.2.2.1, win_rate := md.2.2.2,
      created_at := o.merchCreated i })

/-- Rows inserted into `customers` (seed_data.py lines 80-86); the columns
`total_chargebacks` and `total_refunds` are omitted from the INSERT and take
their schema defaults 0 and 0.00. -/
def seedCustomers (o : Oracle) : List Customer :=
  (List.finRange 7).map (fun i =>
    let cd := customers_data.get ⟨i.val, i.isLt⟩
    { customer_id := cd.1, name := cd.2.1, email := cd.2.2.1,
      region := cd.2.2.2, created_at := o.custCreated i,
      total_chargebacks := 0, total_refunds := 0 })

/-- The `n`-th normal transaction (seed_data.py lines 94-122): low-risk,
status completed, `tx_date` reused for `risk_assessed_at`. -/
def mkNormalTx (o : Oracle) (n : Nat) (cid : String) : Transaction :=
  { transaction_id := generate_id "txn" n
    customer_id := cid
    merchant_id := merchantChoice (o.normalMerchant n)
    amount := o.normalAmount n
    currency := "USD"
    payment_method := payChoice (o.normalMethod n)
    card_last_4 := o.normalCard n
    transaction_date := o.normalDate n
    status := "completed"
    avs_check := avsChoice (o.normalAvs n)
    cvv_check := cvvChoice (o.normalCvv n)
    three_ds_used := o.normalThreeDs n
    auth_code := o.normalAuth n
    ip_address := o.normalIp n
    device_fingerprint := o.normalDevice n
    fraud_score := o.normalScore n
    risk_level := "low"
    velocity_flag := false
    velocity_data := ⟨0, 1, 1 + (o.normalTxWeek n).val⟩
    risk_assessed_at := o.normalDate n }

/-- The per-customer transaction batches of seed_data.py lines 91-123:
for each `(count, customer)` in order, `count` transactions numbered from
the running `transaction_counter`. -/
def buildNormal (o : Oracle) : List (Nat × String) → Nat → List Transaction
  | [], _ => []
  | (cnt, cid) :: rest, start =>
      (List.range cnt).map (fun j => mkNormalTx o (start + j) cid) ++
        buildNormal o rest (start + cnt)

/-- Each customer draws `random.randint(5, 10)` normal transactions
(seed_data.py line 92). -/
def customerCounts (o : Oracle) : List (Nat × String) :=
  (List.finRange 7).map (fun i =>
    (5 + (o.numNormalTx i).val, (customers_data.get ⟨i.val, i.isLt⟩).1))

def sumCounts (l : List (Nat × String)) : Nat := (l.map (fun p => p.1)).sum

/-- The value of `transaction_counter - 1` after the normal-transaction
loop: the number of normal transactions. -/
def normalTxCount (o : Oracle) : Nat := sumCounts (customerCounts o)

/-- All normal transactions, numbered from 1 (`transaction_counter = 1`). -/
def normalTxs (o : Oracle) : List Transaction :=
  buildNormal o (customerCounts o) 1

/-- The constant part of one chargeback case of seed_data.py lines 130-947:
the fields of the case transaction INSERT (whose status is always
`disputed`) and of the `chargeback_cases` dict entry.  `closed` records
whether the source sets `closed_at` to a drawn date (`True` exactly for the
cases it also gives an outcome); `fraud_type` is the generation-time
category tag. -/
structure CaseSpec where
  chargeback_id : String
  customer_id : String
  merchant_id : String
  amount : Int
  payment_method : String
  card_last_4 : String
  avs_check : String
  cvv_check : String
  three_ds_used : Bool
  auth_code : String
  ip_address : String
  device_fingerprint : String
  fraud_score : Int
  risk_level : String
  velocity_flag : Bool
  velocity_data : VelocityData
  reason_code : String
  dispute_type : String
  issuing_bank : String
  chargeback_amount : Int
  analyst_id : String
  status : String
  closed : Bool
  outcome : Option String
  fraud_type : String
deriving Repr, DecidableEq

/-- The 23 cases, in source order (cb_001 .. cb_023). -/
def caseSpecs : List CaseSpec :=
  [{ chargeback_id := "cb_001", customer_id := "cust_001",
     merchant_id := "merch_001", amount := 124999, payment_method := "visa",
     card_last_4 := "4521", avs_check := "N", cvv_check := "N",
     three_ds_used := false, auth_code := "AUTH12345",
     ip_address := "185.220.101.45", device_fingerprint := "DEV999001",
     fraud_score := 9550, risk_level := "high", velocity_flag := true,
     velocity_data := ⟨8, 0, 12⟩, reason_code := "4855",
     dispute_type := "fraud", issuing_bank := "Chase Bank",
     chargeback_amount := 124999, analyst_id := "analyst_001",
     status := "open", closed := false, outcome := none,
     fraud_type := "true_fraud" },
   { chargeback_id := "cb_002", customer_id := "cust_002",
     merchant_id := "merch_002", amount := 89950,
     payment_method := "mastercard", card_last_4 := "5432",
     avs_check := "Z", cvv_check := "N", three_ds_used := false,
     auth_code := "AUTH67890", ip_address := "203.0.113.22",
     device_fingerprint := "DEV999002", fraud_score := 8820,
     risk_level := "high", velocity_flag := true,
     velocity_data := ⟨5, 0, 7⟩, reason_code := "4853",
     dispute_type := "fraud", issuing_bank := "Bank of America",
     chargeback_amount := 89950, analyst_id := "analyst_002",
     status := "open", closed := false, outcome := none,
     fraud_type := "true_fraud" },
   { chargeback_id := "cb_003", customer_id := "cust_003",
     merchant_id := "merch_001", amount := 29999, payment_method := "visa",
     card_last_4 := "1234", avs_check := "Y", cvv_check := "Y",
     three_ds_used := true, auth_code := "AUTH11111",
     ip_address := "192.168.1.100", device_fingerprint := "DEV123456",
     fraud_score := 1500, risk_level := "low", velocity_flag := false,
     velocity_data := ⟨1, 5, 2⟩, reason_code := "4855",
     dispute_type := "service_not_provided", issuing_bank := "Wells Fargo",
     chargeback_amount := 29999, analyst_id := "analyst_003",
     status := "open", closed := false, outcome := none,
     fraud_type := "friendly_fraud" },
   { chargeback_id := "cb_004", customer_id := "cust_004",
     merchant_id := "merch_003", amount := 54999, payment_method := "amex",
     card_last_4 := "5678", avs_check := "Y", cvv_check := "Y",
     three_ds_used := true, auth_code := "AUTH22222",
     ip_address := "192.168.1.101", device_fingerprint := "DEV123457",
     fraud_score := 1250, risk_level := "low", velocity_flag := false,
     velocity_data := ⟨1, 8, 3⟩, reason_code := "4855",
     dispute_type := "service_not_provided", issuing_bank := "Citi Bank",
     chargeback_amount := 54999, analyst_id := "analyst_004",
     status := "open", closed := false, outcome := none,
     fraud_type := "friendly_fraud" },
   { chargeback_id := "cb_005", customer_id := "cust_005",
     merchant_id := "merch_002", amount := 7999, payment_method := "visa",
     card_last_4 := "9012", avs_check := "Y", cvv_check := "Y",
     three_ds_used := true, auth_code := "AUTH33333",
     ip_address := "192.168.1.102", device_fingerprint := "DEV123458",
     fraud_score := 1000, risk_level := "low", velocity_flag := false,
     velocity_data := ⟨1, 12, 1⟩, reason_code := "4855",
     dispute_type := "service_not_provided", issuing_bank := "Chase Bank",
     chargeback_amount := 7999, analyst_id := "analyst_005",
     status := "open", closed := false, outcome := none,
     fraud_type := "friendly_fraud" },
   { chargeback_id := "cb_006", customer_id := "cust_006",
     merchant_id := "merch_004", amount := 19999,
     payment_method := "mastercard", card_last_4 := "3456",
     avs_check := "Y", cvv_check := "Y", three_ds_used := true,
     auth_code := "AUTH44444", ip_address := "192.168.1.103",
     device_fingerprint := "DEV123459", fraud_score := 1800,
     risk_level := "low", velocity_flag := false,
     velocity_data := ⟨1, 6, 4⟩, reason_code := "4855",
     dispute_type := "fraud", issuing_bank := "Bank of America",
     chargeback_amount := 19999, analyst_id := "analyst_006",
     status := "open", closed := false, outcome := none,
     fraud_type := "friendly_fraud" },
   { chargeback_id := "cb_007", customer_id := "cust_001",
     merchant_id := "merch_003", amount := 14999, payment_method := "visa",
     card_last_4 := "4521", avs_check := "Y", cvv_check := "Y",
     three_ds_used := true, auth_code := "AUTH66666",
     ip_address := "192.168.1.100", device_fingerprint := "DEV123456",
     fraud_score := 500, risk_level := "low", velocity_flag := false,
     velocity_data := ⟨1, 5, 2⟩, reason_code := "4837",
     dispute_type := "duplicate", issuing_bank := "Chase Bank",
     chargeback_amount := 14999, analyst_id := "analyst_007",
     status := "open", closed := false, outcome := none,
     fraud_type := "merchant_error" },
   { chargeback_id := "cb_008", customer_id := "cust_002",
     merchant_id := "merch_002", amount := 24999,
     payment_method := "mastercard", card_last_4 := "5432",
     avs_check := "Y", cvv_check := "Y", three_ds_used := true,
     auth_code := "AUTH77777", ip_address := "192.168.1.101",
     device_fingerprint := "DEV123457", fraud_score := 800,
     risk_level := "low", velocity_flag := false,
     velocity_data := ⟨1, 8, 3⟩, reason_code := "4837",
     dispute_type := "duplicate", issuing_bank := "Bank of America",
     chargeback_amount := 24999, analyst_id := "analyst_008",
     status := "open", closed := false, outcome := none,
     fraud_type := "merchant_error" },
   { chargeback_id := "cb_009", customer_id := "cust_003",
     merchant_id := "merch_001", amount := 17999, payment_method := "visa",
     card_last_4 := "1234", avs_check := "Y", cvv_check := "Y",
     three_ds_used := true, auth_code := "AUTH88888",
     ip_address := "192.168.1.100", device_fingerprint := "DEV123456",
     fraud_score := 1200, risk_level := "low", velocity_flag := false,
     velocity_data := ⟨1, 5, 2⟩, reason_code := "4855",
     dispute_type := "fraud", issuing_bank := "Wells Fargo",
     chargeback_amount := 17999, analyst_id := "analyst_009",
     status := "won", closed := true, outcome := some "won",
     fraud_type := "not_guilty" },
   { chargeback_id := "cb_010", customer_id := "cust_004",
     merchant_id := "merch_002", amount := 4999, payment_method := "amex",
     card_last_4 := "5678", avs_check := "Y", cvv_check := "Y",
     three_ds_used := true, auth_code := "AUTH99999",
     ip_address := "192.168.1.101", device_fingerprint := "DEV123457",
     fraud_score := 1000, risk_level := "low", velocity_flag := false,
     velocity_data := ⟨1, 8, 3⟩, reason_code := "4855",
     dispute_type := "service_not_provided", issuing_bank := "Citi Bank",
     chargeback_amount := 4999, analyst_id := "analyst_010",
     status := "won", closed := true, outcome := some "won",
     fraud_type := "not_guilty" },
   { chargeback_id := "cb_011", customer_id := "cust_005",
     merchant_id := "merch_003", amount := 8999, payment_method := "visa",
     card_last_4 := "9012", avs_check := "Y", cvv_check := "Y",
     three_ds_used := true, auth_code := "AUTH10101",
     ip_address := "192.168.1.102", device_fingerprint := "DEV123458",
     fraud_score := 800, risk_level := "low", velocity_flag := false,
     velocity_data := ⟨1, 12, 1⟩, reason_code := "4855",
     dispute_type := "service_not_provided", issuing_bank := "Chase Bank",
     chargeback_amount := 8999, analyst_id := "analyst_011",
     status := "won", closed := true, outcome := some "won",
     fraud_type := "not_guilty" },
   { chargeback_id := "cb_012", customer_id := "cust_006",
     merchant_id := "merch_004", amount := 29999,
     payment_method := "mastercard", card_last_4 := "3456",
     avs_check := "Y", cvv_check := "Y", three_ds_used := true,
     auth_code := "AUTH20202", ip_address := "192.168.1.103",
     device_fingerprint := "DEV123459", fraud_score := 1500,
     risk_level := "low", velocity_flag := false,
     velocity_data := ⟨1, 6, 4⟩, reason_code := "4855",
     dispute_type := "service_not_provided",
     issuing_bank := "Bank of America", chargeback_amount := 29999,
     analyst_id := "analyst_012", status := "won", closed := true,
     outcome := some "won", fraud_type := "not_guilty" },
   { chargeback_id := "cb_013", customer_id := "cust_007",
     merchant_id := "merch_001", amount := 39999, payment_method := "visa",
     card_last_4 := "7890", avs_check := "Y", cvv_check := "Y",
     three_ds_used := true, auth_code := "AUTH30303",
     ip_address := "192.168.1.104", device_fingerprint := "DEV123460",
     fraud_score := 1100, risk_level := "low", velocity_flag := false,
     velocity_data := ⟨1, 10, 2⟩, reason_code := "4855",
     dispute_type := "service_not_provided", issuing_bank := "Wells Fargo",
     chargeback_amount := 39999, analyst_id := "analyst_013",
     status := "won", closed := true, outcome := some "won",
     fraud_type := "not_guilty" },
   { chargeback_id := "cb_014", customer_id := "cust_003",
     merchant_id := "merch_002", amount := 67550, payment_method := "visa",
     card_last_4 := "1234", avs_check := "N", cvv_check := "N",
     three_ds_used := false, auth_code := "AUTH45678",
     ip_address := "198.51.100.10", device_fingerprint := "DEV999003",
     fraud_score := 9230, risk_level := "high", velocity_flag := true,
     velocity_data := ⟨6, 0, 9⟩, reason_code := "4855",
     dispute_type := "fraud", issuing_bank := "Wells Fargo",
     chargeback_amount := 67550, analyst_id := "analyst_014",
     status := "open", closed := false, outcome := none,
     fraud_type := "true_fraud" },
   { chargeback_id := "cb_015", customer_id := "cust_001",
     merchant_id := "merch_004", amount := 112500, payment_method := "visa",
     card_last_4 := "4521", avs_check := "N", cvv_check := "N",
     three_ds_used := false, auth_code := "AUTH56789",
     ip_address := "172.217.12.46", device_fingerprint := "DEV999004",
     fraud_score := 8970, risk_level := "high", velocity_flag := true,
     velocity_data := ⟨4, 0, 6⟩, reason_code := "4855",
     dispute_type := "fraud", issuing_bank := "Chase Bank",
     chargeback_amount := 112500, analyst_id := "analyst_015",
     status := "open", closed := false, outcome := none,
     fraud_type := "true_fraud" },
   { chargeback_id := "cb_016", customer_id := "cust_007",
     merchant_id := "merch_001", amount := 82575,
     payment_method := "mastercard", card_last_4 := "7890",
     avs_check := "Z", cvv_check := "N", three_ds_used := false,
     auth_code := "AUTH67891", ip_address := "104.248.90.2",
     device_fingerprint := "DEV999005", fraud_score := 9120,
     risk_level := "high", velocity_flag := true,
     velocity_data := ⟨7, 0, 11⟩, reason_code := "4853",
     dispute_type := "fraud", issuing_bank := "Wells Fargo",
     chargeback_amount := 82575, analyst_id := "analyst_016",
     status := "open", closed := false, outcome := none,
     fraud_type := "true_fraud" },
   { chargeback_id := "cb_017", customer_id := "cust_003",
     merchant_id := "merch_003", amount := 42599, payment_method := "visa",
     card_last_4 := "1234", avs_check := "Y", cvv_check := "Y",
     three_ds_used := true, auth_code := "AUTH78901",
     ip_address := "192.168.1.100", device_fingerprint := "DEV123456",
     fraud_score := 1450, risk_level := "low", velocity_flag := false,
     velocity_data := ⟨1, 5, 2⟩, reason_code := "4855",
     dispute_type := "service_not_provided", issuing_bank := "Wells Fargo",
     chargeback_amount := 42599, analyst_id := "analyst_017",
     status := "won", closed := true, outcome := some "won",
     fraud_type := "friendly_fraud" },
   { chargeback_id := "cb_018", customer_id := "cust_005",
     merchant_id := "merch_001", amount := 9999, payment_method := "visa",
     card_last_4 := "9012", avs_check := "Y", cvv_check := "Y",
     three_ds_used := true, auth_code := "AUTH89012",
     ip_address := "192.168.1.102", device_fingerprint := "DEV123458",
     fraud_score := 1100, risk_level := "low", velocity_flag := false,
     velocity_data := ⟨1, 12, 1⟩, reason_code := "4855",
     dispute_type := "service_not_provided", issuing_bank := "Chase Bank",
     chargeback_amount := 9999, analyst_id := "analyst_018",
     status := "won", closed := true, outcome := some "won",
     fraud_type := "friendly_fraud" },
   { chargeback_id := "cb_019", customer_id := "cust_004",
     merchant_id := "merch_004", amount := 37550, payment_method := "amex",
     card_last_4 := "5678", avs_check := "Y", cvv_check := "Y",
     three_ds_used := true, auth_code := "AUTH90123",
     ip_address := "192.168.1.101", device_fingerprint := "DEV123457",
     fraud_score := 1300, risk_level := "low", velocity_flag := false,
     velocity_data := ⟨1, 8, 3⟩, reason_code := "4855",
     dispute_type := "service_not_provided", issuing_bank := "Citi Bank",
     chargeback_amount := 37550, analyst_id := "analyst_019",
     status := "won", closed := true, outcome := some "won",
     fraud_type := "friendly_fraud" },
   { chargeback_id := "cb_020", customer_id := "cust_006",
     merchant_id := "merch_002", amount := 27525,
     payment_method := "mastercard", card_last_4 := "3456",
     avs_check := "Y", cvv_check := "Y", three_ds_used := true,
     auth_code := "AUTH01234", ip_address := "192.168.1.103",
     device_fingerprint := "DEV123459", fraud_score := 1650,
     risk_level := "low", velocity_flag := false,
     velocity_data := ⟨1, 6, 4⟩, reason_code := "4855",
     dispute_type := "fraud", issuing_bank := "Bank of America",
     chargeback_amount := 27525, analyst_id := "analyst_020",
     status := "won", closed := true, outcome := some "won",
     fraud_type := "friendly_fraud" },
   { chargeback_id := "cb_021", customer_id := "cust_001",
     merchant_id := "merch_002", amount := 18999, payment_method := "visa",
     card_last_4 := "4521", avs_check := "Y", cvv_check := "Y",
     three_ds_used := true, auth_code := "AUTH12346",
     ip_address := "192.168.1.100", device_fingerprint := "DEV123456",
     fraud_score := 600, risk_level := "low", velocity_flag := false,
     velocity_data := ⟨1, 5, 2⟩, reason_code := "4837",
     dispute_type := "duplicate", issuing_bank := "Chase Bank",
     chargeback_amount := 18999, analyst_id := "analyst_021",
     status := "lost", closed := true, outcome := some "lost",
     fraud_type := "merchant_error" },
   { chargeback_id := "cb_022", customer_id := "cust_002",
     merchant_id := "merch_003", amount := 31999,
     payment_method := "mastercard", card_last_4 := "5432",
     avs_check := "Y", cvv_check := "Y", three_ds_used := true,
     auth_code := "AUTH23457", ip_address := "192.168.1.101",
     device_fingerprint := "DEV123457", fraud_score := 750,
     risk_level := "low", velocity_flag := false,
     velocity_data := ⟨1, 8, 3⟩, reason_code := "4837",
     dispute_type := "duplicate", issuing_bank := "Bank of America",
     chargeback_amount := 31999, analyst_id := "analyst_022",
     status := "lost", closed := true, outcome := some "lost",
     fraud_type := "merchant_error" },
   { chargeback_id := "cb_023", customer_id := "cust_007",
     merchant_id := "merch_004", amount := 22500, payment_method := "visa",
     card_last_4 := "7890", avs_check := "Y", cvv_check := "Y",
     three_ds_used := true, auth_code := "AUTH34568",
     ip_address := "192.168.1.104", device_fingerprint := "DEV123460",
     fraud_score := 900, risk_level := "low", velocity_flag := false,
     velocity_data := ⟨1, 10, 2⟩, reason_code := "4837",
     dispute_type := "duplicate", issuing_bank := "Wells Fargo",
     chargeback_amount := 22500, analyst_id := "analyst_023",
     status := "lost", closed := true, outcome := some "lost",
     fraud_type := "merchant_error" }]

/-- The transaction inserted for case `i` (seed_data.py: each case first
allocates `generate_id("txn", transaction_counter)` and inserts a disputed
transaction); `k` is the number of already-allocated (normal) transactions,
so case `i` gets number `k + 1 + i`. -/
def caseTx (o : Oracle) (k : Nat) (i : Fin 23) : Transaction :=
  let s := caseSpecs.get ⟨i.val, i.isLt⟩
  { transaction_id := generate_id "txn" (k + 1 + i.val)
    customer_id := s.customer_id
    merchant_id := s.merchant_id
    amount := s.amount
    currency := "USD"
    payment_method := s.payment_method
    card_last_4 := s.card_last_4
    transaction_date := o.caseTxDate i
    status := "disputed"
    avs_check := s.avs_check
    cvv_check := s.cvv_check
    three_ds_used := s.three_ds_used
    auth_code := s.auth_code
    ip_address := s.ip_address
    device_fingerprint := s.device_fingerprint
    fraud_score := s.fraud_score
    risk_level := s.risk_level
    velocity_flag := s.velocity_flag
    velocity_data := s.velocity_data
    risk_assessed_at := o.caseRiskDate i }

/-- The 23 case transactions in insertion order. -/
def caseTxs (o : Oracle) (k : Nat) : List Transaction :=
  (List.finRange 23).map (caseTx o k)

/-- The chargeback row inserted for case `i` (seed_data.py lines 949-961):
the dict entry's fields, plus `retrieval_request_date = None` and a drawn
`response_deadline`; `closed_at` is a drawn date exactly when the dict sets
one (`closed`), else NULL. -/
def caseChargeback (o : Oracle) (k : Nat) (i : Fin 23) : ChargebackRow :=
  let s := caseSpecs.get ⟨i.val, i.isLt⟩
  { chargeback_id := s.chargeback_id
    transaction_id := generate_id "txn" (k + 1 + i.val)
    dispute_date := o.caseDisputeDate i
    reason_code := s.reason_code
    dispute_type := s.dispute_type
    issuing_bank := s.issuing_bank
    chargeback_amount := s.chargeback_amount
    analyst_id := s.analyst_id
    status := s.status
    opened_at := o.caseOpenedAt i
    closed_at := if s.closed then some (o.caseClosedAt i) else none
    outcome := s.outcome
    retrieval_request_date := none
    response_deadline := o.caseDeadline i
    notes := o.caseNotes i }

/-- The 23 chargeback rows in insertion order. -/
def seedChargebacks (o : Oracle) (k : Nat) : List ChargebackRow :=
  (List.finRange 23).map (caseChargeback o k)

/-- The authored evidence templates (seed_data.py `case_evidence`,
lines 967-1969), keyed by chargeback id; only the event-type tags are kept
structurally — each tuple's JSON payload and prose description are opaque
blobs supplied by the oracle. -/
def case_evidence : List (String × List String) :=
  [("cb_001", ["support_ticket", "transaction_analysis", "fraud_indicators",
               "velocity_check", "previous_dispute"]),
   ("cb_002", ["support_ticket", "login_analysis", "fraud_indicators",
               "velocity_check", "previous_dispute"]),
   ("cb_003", ["support_ticket", "shipping_evidence", "login", "refund",
               "previous_dispute"]),
   ("cb_004", ["support_ticket", "refund", "product_evidence", "login",
               "previous_dispute"]),
   ("cb_005", ["support_ticket", "subscription_evidence", "login", "refund",
               "previous_dispute"]),
   ("cb_006", ["support_ticket", "transaction_analysis", "login",
               "fraud_indicators", "previous_dispute"]),
   ("cb_007", ["support_ticket", "merchant_investigation", "refund", "login",
               "system_fix"]),
   ("cb_008", ["support_ticket", "merchant_investigation", "refund", "login",
               "system_fix"]),
   ("cb_009", ["support_ticket", "transaction_evidence", "login",
               "delivery_evidence", "previous_dispute"]),
   ("cb_010", ["support_ticket", "subscription_evidence", "login", "refund",
               "previous_dispute"]),
   ("cb_011", ["support_ticket", "delivery_evidence", "usage_analytics",
               "login", "previous_dispute"]),
   ("cb_012", ["support_ticket", "return_policy_evidence", "product_evidence",
               "refund", "previous_dispute"]),
   ("cb_013", ["support_ticket", "delivery_evidence", "login", "refund",
               "previous_dispute"]),
   ("cb_014", ["support_ticket", "transaction_analysis", "fraud_indicators",
               "velocity_check", "previous_dispute"]),
   ("cb_015", ["support_ticket", "transaction_analysis", "fraud_indicators",
               "velocity_check", "previous_dispute"]),
   ("cb_016", ["support_ticket", "transaction_analysis", "fraud_indicators",
               "velocity_check", "previous_dispute"]),
   ("cb_017", ["support_ticket", "shipping_evidence", "login",
               "previous_dispute"]),
   ("cb_018", ["support_ticket", "subscription_evidence", "login",
               "previous_dispute"]),
   ("cb_019", ["support_ticket", "refund", "product_evidence",
               "previous_dispute"]),
   ("cb_020", ["support_ticket", "transaction_analysis", "login",
               "previous_dispute"]),
   ("cb_021", ["support_ticket", "merchant_investigation", "refund",
               "previous_dispute"]),
   ("cb_022", ["support_ticket", "merchant_investigation", "refund",
               "previous_dispute"]),
   ("cb_023", ["support_ticket", "merchant_investigation", "refund",
               "system_fix", "previous_dispute"])]

/-- The generic two-event fallback sequences (seed_data.py lines 1978-1995),
keyed by `fraud_type`. -/
def generic_events : List (String × List String) :=
  [("true_fraud", ["support_ticket", "login"]),
   ("friendly_fraud", ["support_ticket", "refund"]),
   ("merchant_error", ["support_ticket", "refund"]),
   ("not_guilty", ["support_ticket", "refund"])]

/-- Python `dict.get(key, [])` followed by `.map` extraction. -/
def lookupTypes (l : List (String × List String)) (key : String) :
    Option (List String) :=
  (l.find? (fun p => p.1 = key)).map (fun p => p.2)

/-- The event loop's template selection (seed_data.py lines 1971-1996):
`events = case_evidence.get(cb_id, [])`; `if not events`, fall back to
`generic_events.get(fraud_type, [])`. -/
def eventTypesFor (s : CaseSpec) : List String :=
  let evs := (lookupTypes case_evidence s.chargeback_id).getD []
  if evs.isEmpty then (lookupTypes generic_events s.fraud_type).getD []
  else evs

/-- The case-event rows inserted for case `i` (seed_data.py
lines 1997-2013), one per template entry, each dated by a fresh
`random_date(10, 1)` draw. -/
def eventsFor (o : Oracle) (i : Fin 23) : List CaseEvent :=
  let s := caseSpecs.get ⟨i.val, i.isLt⟩
  (eventTypesFor s).enum.map (fun p =>
    { chargeback_id := s.chargeback_id, event_type := p.2,
      event_date := o.eventDate i p.1, event_data := o.eventData i p.1,
      description := o.eventDesc i p.1 })

/-- All inserted case events, grouped by case in loop order. -/
def allEvents (o : Oracle) : List CaseEvent :=
  ((List.finRange 23).map (eventsFor o)).flatten

/-- The customer-statistics SELECT (seed_data.py lines 2018-2023):
`COUNT(*)` over `chargebacks JOIN transactions ON transaction_id` filtered
by the transaction's customer — a count of join pairs. -/
def sqlJoinCount (db : DB) (cid : String) : Nat :=
  (db.chargebacks.map (fun cb =>
    db.transactions.countP (fun t =>
      t.transaction_id = cb.transaction_id && t.customer_id = cid))).sum

/-- Independent recomputation in the words of the spec: the number of
Chargebacks whose referenced Transaction (looked up by primary key) belongs
to the given customer. -/
def recomputedTotal (db : DB) (cid : String) : Nat :=
  db.chargebacks.countP (fun cb =>
    match db.transactions.find? (fun t =>
        t.transaction_id = cb.transaction_id) with
    | some t => t.customer_id = cid
    | none => false)

/-- The update loop of seed_data.py lines 2015-2028: for each id in
`customers_data`, `UPDATE customers SET total_chargebacks = <join count>`.
The SELECTs read only `chargebacks`/`transactions`, which the UPDATEs never
touch, so the loop's net effect on the table is this row-wise map. -/
def applyTotals (db : DB) : DB :=
  { db with
    customers := db.customers.map (fun c =>
      if customers_data.any (fun cd => cd.1 = c.customer_id) then
        { c with total_chargebacks := sqlJoinCount db c.customer_id }
      else c) }

/-- The table names in the order seed_data.py lines 43-47 issues
`DELETE FROM` statements. -/
def seedDeleteOrder : List String :=
  ["case_events", "chargebacks", "transactions", "customers", "merchants"]

/-- The five `DELETE FROM` statements, children before parents. -/
def clearTables (db : DB) : DB :=
  let db1 := { db with case_events := [] }
  let db2 := { db1 with chargebacks := [] }
  let db3 := { db2 with transactions := [] }
  let db4 := { db3 with customers := [] }
  { db4 with merchants := [] }

/-- Everything `seed_database` inserts, appended to a given store state.
All generated primary keys are fresh, so the net effect of the INSERT
statements is these appends. -/
def seedInto (db : DB) (o : Oracle) : DB :=
  let k := normalTxCount o
  applyTotals
    { db with
      merchants := db.merchants ++ seedMerchants o
      customers := db.customers ++ seedCustomers o
      transactions := db.transactions ++ (normalTxs o ++ caseTxs o k)
      chargebacks := db.chargebacks ++ seedChargebacks o k
      case_events := db.case_events ++ allEvents o }

/-- The store produced by a completed generator run. -/
def seededDB (o : Oracle) : DB := seedInto emptyDB o

/-- The seeded store just before the customer-statistics update loop. -/
def seedBase (o : Oracle) : DB :=
  { customers := seedCustomers o
    merchants := seedMerchants o
    transactions := normalTxs o ++ caseTxs o (normalTxCount o)
    chargebacks := seedChargebacks o (normalTxCount o)
    case_events := allEvents o }

/-- `seed_database` (seed_data.py lines 28-2057): if the store is missing,
print an error and return without writing; otherwise clear all five tables
and write the dataset. -/
def seed_database (fs : Option DB) (o : Oracle) : Option DB :=
  match fs with
  | none => none
  | some db => some (seedInto (clearTables db) o)

/-- A concrete oracle (all draws constant), used to instantiate witnesses. -/
def defaultOracle : Oracle :=
  { numNormalTx := fun _ => 0
    merchCreated := fun _ => "2023-01-01"
    custCreated := fun _ => "2023-01-01"
    normalMerchant := fun _ => 0
    normalAmount := fun _ => 10000
    normalDate := fun _ => "2024-01-01"
    normalScore := fun _ => 1000
    normalTxWeek := fun _ => 0
    normalMethod := fun _ => 0
    normalCard := fun _ => "1000"
    normalAvs := fun _ => 0
    normalCvv := fun _ => 0
    normalThreeDs := fun _ => false
    normalAuth := fun _ => "AUTH10000"
    normalIp := fun _ => "192.168.1.1"
    normalDevice := fun _ => "DEV100000"
    caseTxDate := fun _ => "2024-02-01"
    caseRiskDate := fun _ => "2024-02-01"
    caseDisputeDate := fun _ => "2024-02-10"
    caseOpenedAt := fun _ => "2024-02-12"
    caseClosedAt := fun _ => "2024-03-01"
    caseDeadline := fun _ => "2024-03-15"
    caseNotes := fun _ => "case notes"
    eventDate := fun _ _ => "2024-02-20"
    eventData := fun _ _ => "payload"
    eventDesc := fun _ _ => "event description" }

/-- A case record with no authored evidence template, probing the fallback
branch of the event loop. -/
def fallbackProbe : CaseSpec :=
  { chargeback_id := "cb_099", customer_id := "cust_001",
    merchant_id := "merch_001", amount := 10000, payment_method := "visa",
    card_last_4 := "1111", avs_check := "N", cvv_check := "N",
    three_ds_used := false, auth_code := "AUTH11112",
    ip_address := "203.0.113.1", device_fingerprint := "DEV999099",
    fraud_score := 9000, risk_level := "high", velocity_flag := true,
    velocity_data := ⟨5, 0, 9⟩, reason_code := "4855",
    dispute_type := "fraud", issuing_bank := "Chase Bank",
    chargeback_amount := 10000, analyst_id := "analyst_099",
    status := "open", closed := false, outcome := none,
    fraud_type := "true_fraud" }

/-- A dangling transaction: its customer and merchant reference no row. -/
def danglingTx : Transaction :=
  { transaction_id := "txn_9999", customer_id := "cust_404",
    merchant_id := "merch_404", amount := 10000, currency := "USD",
    payment_method := "visa", card_last_4 := "0000",
    transaction_date := "2024-01-01", status := "completed",
    avs_check := "Y", cvv_check := "Y", three_ds_used := false,
    auth_code := "AUTH00000", ip_address := "192.168.1.1",
    device_fingerprint := "DEV000000", fraud_score := 1000,
    risk_level := "low", velocity_flag := false,
    velocity_data := ⟨0, 1, 1⟩, risk_assessed_at := "2024-01-01" }

/-- A store holding one customer row, used to exhibit data loss on re-init. -/
def oneCustomerDB : DB :=
  { emptyDB with
    customers := [{ customer_id := "cust_001", name := "Sarah Johnson",
                    email := "sarah.j@email.com", region := "US",
                    created_at := "2023-01-01", total_chargebacks := 0,
                    total_refunds := 0 }] }

/-- A transaction row used to demonstrate duplicate-dispute acceptance. -/
def dupDemoTx : Transaction :=
  { transaction_id := "txn_0001", customer_id := "cust_001",
    merchant_id := "merch_001", amount := 10000, currency := "USD",
    payment_method := "visa", card_last_4 := "4521",
    transaction_date := "2024-01-01", status := "disputed",
    avs_check := "Y", cvv_check := "Y", three_ds_used := true,
    auth_code := "AUTH11113", ip_address := "192.168.1.2",
    device_fingerprint := "DEV100001", fraud_score := 1000,
    risk_level := "low", velocity_flag := false,
    velocity_data := ⟨0, 1, 1⟩, risk_assessed_at := "2024-01-01" }

/-- A chargeback row (parameterized by id) referencing `dupDemoTx`. -/
def demoChargeback (cbid : String) : ChargebackRow :=
  { chargeback_id := cbid, transaction_id := "txn_0001",
    dispute_date := "2024-02-01", reason_code := "4855",
    dispute_type := "fraud", issuing_bank := "Chase Bank",
    chargeback_amount := 10000, analyst_id := "analyst_001",
    status := "open", opened_at := "2024-02-02", closed_at := none,
    outcome := none, retrieval_request_date := none,
    response_deadline := "2024-03-01", notes := "demo" }

/-- A store with one transaction already carrying one chargeback. -/
def dupDemoDB : DB :=
  { customers := oneCustomerDB.customers
    merchants := [{ merchant_id := "merch_001",
                    merchant_name := "TechStore Pro",
                    acquiring_bank := "Chase Bank", win_rate := 7250,
                    created_at := "2023-01-01" }]
    transactions := [dupDemoTx]
    chargebacks := [demoChargeback "cb_A"]
    case_events := [] }

/-!  Theorems.  -/

/-- C1 counterexample: on the generator's connection (which never executes
`PRAGMA foreign_keys = ON`), inserting a transaction whose customer and
merchant reference no existing row succeeds, and the table's row count grows
from 0 to 1 — the insert neither fails nor leaves the count unchanged. -/
theorem C1_counterexample :
    emptyDB.customers.any
        (fun c => c.customer_id = danglingTx.customer_id) = false ∧
    emptyDB.merchants.any
        (fun m => m.merchant_id = danglingTx.merchant_id) = false ∧
    insertTransaction seedConnForeignKeys emptyDB danglingTx =
      .ok { emptyDB with transactions := [danglingTx] } ∧
    emptyDB.transactions.length = 0 := by
  refine ⟨rfl, rfl, rfl, rfl⟩

/-- C1 amended: an insert with a dangling reference fails with a
constraint-violation error (leaving the store unchanged) on a connection
that has enabled the foreign-keys pragma — which the initializer's
connection does; the generator's connection does not enable it, so the
check is off there. -/
theorem C1_amended :
    (∀ (db : DB) (t : Transaction),
        db.transactions.any
          (fun u => u.transaction_id = t.transaction_id) = false →
        (db.customers.any (fun c => c.customer_id = t.customer_id) &&
         db.merchants.any (fun m => m.merchant_id = t.merchant_id)) = false →
        insertTransaction setupConnForeignKeys db t =
          .error .fkViolation) ∧
    (∀ (db : DB) (c : ChargebackRow),
        db.chargebacks.any
          (fun x => x.chargeback_id = c.chargeback_id) = false →
        db.transactions.any
          (fun t => t.transaction_id = c.transaction_id) = false →
        insertChargeback setupConnForeignKeys db c = .error .fkViolation) ∧
    seedConnForeignKeys = false := by
  refine ⟨fun db t h1 h2 => ?_, fun db c h1 h2 => ?_, rfl⟩ <;>
    simp [insertTransaction, insertChargeback, setupConnForeignKeys, h1, h2]

/-- C1 witness: the amended theorem applied at a concrete dangling insert. -/
theorem C1_amended_witness :
    insertTransaction setupConnForeignKeys emptyDB danglingTx =
      .error .fkViolation :=
  C1_amended.1 emptyDB danglingTx rfl rfl

/-- C2 counterexample: initializing over an existing, non-empty store
succeeds (returns a fresh empty store) instead of failing, destroying the
existing row. -/
theorem C2_counterexample :
    init_database (some oneCustomerDB) = .ok emptyDB ∧
    oneCustomerDB ≠ emptyDB := by
  exact ⟨rfl, by decide⟩

/-- C2 amended: the initialize operation never fails; whether or not the
backing store exists, it removes any existing file without asking for
confirmation and produces a fresh empty store, destroying prior data. -/
theorem C2_amended (fs : Option DB) : init_database fs = .ok emptyDB := by
  cases fs <;> rfl

/-- C3 counterexample: a store already holding a chargeback on
`txn_0001` accepts a second chargeback on the same transaction, even with
the foreign-keys pragma enabled — no constraint violation is raised. -/
theorem C3_counterexample :
    (demoChargeback "cb_A") ∈ dupDemoDB.chargebacks ∧
    (demoChargeback "cb_A").transaction_id =
      (demoChargeback "cb_B").transaction_id ∧
    insertChargeback setupConnForeignKeys dupDemoDB (demoChargeback "cb_B") =
      .ok { dupDemoDB with
            chargebacks := [demoChargeback "cb_A", demoChargeback "cb_B"] } := by
  refine ⟨List.mem_singleton.mpr rfl, rfl, rfl⟩

/-- C3 amended: the schema has no unique constraint on
`chargebacks.transaction_id` (only a non-unique index), so the storage
boundary accepts a second Chargeback referencing the same transaction: any
chargeback insert with a fresh primary key and an existing referenced
transaction succeeds, regardless of an existing chargeback on that
transaction and of the connection's pragma. -/
theorem C3_amended (fk : Bool) (db : DB) (c : ChargebackRow)
    (hdup : db.chargebacks.any
      (fun x => x.transaction_id = c.transaction_id) = true)
    (hpk : db.chargebacks.any
      (fun x => x.chargeback_id = c.chargeback_id) = false)
    (hfk : db.transactions.any
      (fun t => t.transaction_id = c.transaction_id) = true) :
    insertChargeback fk db c =
      .ok { db with chargebacks := db.chargebacks ++ [c] } := by
  simp [insertChargeback, hpk, hfk]

/-- C3 witness: the amended theorem at the concrete duplicate-dispute
store. -/
theorem C3_amended_witness :
    insertChargeback true dupDemoDB (demoChargeback "cb_B") =
      .ok { dupDemoDB with
            chargebacks := dupDemoDB.chargebacks ++ [demoChargeback "cb_B"] } :=
  C3_amended true dupDemoDB (demoChargeback "cb_B") rfl rfl rfl

/-- C4: on an initialized empty store all five row counts are zero, but the
reporting run does not complete: the transaction-statistics section formats
the SQL NULL returned by `SUM(amount)` over zero rows and raises a
`TypeError`, contradicting the contract that every aggregate tolerates an
empty store. -/
theorem C4_empty_store_report :
    tableCounts emptyDB =
      [("customers", 0), ("merchants", 0), ("transactions", 0),
       ("chargebacks", 0), ("case_events", 0)] ∧
    view_database (some emptyDB) =
      .error "unsupported format string passed to NoneType.__format__" := by
  exact ⟨rfl, rfl⟩

/-- C5: every transaction the generator creates for a true-fraud case
carries a fraud score at least 50 points (5000 hundredths) above that of
every transaction it creates for a not-guilty case. -/
theorem C5 (o : Oracle) (i j : Fin 23)
    (hi : (caseSpecs.get ⟨i.val, i.isLt⟩).fraud_type = "true_fraud")
    (hj : (caseSpecs.get ⟨j.val, j.isLt⟩).fraud_type = "not_guilty") :
    (caseTx o (normalTxCount o) j).fraud_score + 5000 ≤
      (caseTx o (normalTxCount o) i).fraud_score := by
  have key : ∀ s1 ∈ caseSpecs, ∀ s2 ∈ caseSpecs,
      s1.fraud_type = "true_fraud" → s2.fraud_type = "not_guilty" →
      s2.fraud_score + 5000 ≤ s1.fraud_score := by decide
  simpa [caseTx] using
    key _ (caseSpecs.get_mem _ _) _ (caseSpecs.get_mem _ _) hi hj

/-- C5 witness: the first true-fraud case (cb_001) against the first
not-guilty case (cb_009). -/
theorem C5_witness :
    (caseSpecs.get ⟨0, by decide⟩).fraud_type = "true_fraud" ∧
    (caseSpecs.get ⟨8, by decide⟩).fraud_type = "not_guilty" ∧
    (caseTx defaultOracle (normalTxCount defaultOracle)
        ⟨8, by decide⟩).fraud_score + 5000 ≤
      (caseTx defaultOracle (normalTxCount defaultOracle)
        ⟨0, by decide⟩).fraud_score :=
  ⟨by decide, by decide,
   C5 defaultOracle ⟨0, by decide⟩ ⟨8, by decide⟩ (by decide) (by decide)⟩

/-- C7: for every Chargeback the generator writes, `closed_at` is null
exactly when `outcome` is null. -/
theorem C7 (o : Oracle) (cb : ChargebackRow)
    (h : cb ∈ (seededDB o).chargebacks) :
    cb.closed_at = none ↔ cb.outcome = none := by
  have hmem : cb ∈ (List.finRange 23).map
      (caseChargeback o (normalTxCount o)) := h
  obtain ⟨i, -, rfl⟩ := List.mem_map.mp hmem
  have key : ∀ s ∈ caseSpecs, s.closed = s.outcome.isSome := by decide
  have hs := key (caseSpecs.get ⟨i.val, i.isLt⟩)
    (caseSpecs.get_mem i.val i.isLt)
  rcases hout : (caseSpecs.get ⟨i.val, i.isLt⟩).outcome with _ | v <;>
    rcases hcl : (caseSpecs.get ⟨i.val, i.isLt⟩).closed <;>
      simp_all [caseChargeback]

/-- C7 witness: the theorem applied to the first seeded chargeback. -/
theorem C7_witness :
    (caseChargeback defaultOracle (normalTxCount defaultOracle)
        ⟨0, by decide⟩).closed_at = none ↔
    (caseChargeback defaultOracle (normalTxCount defaultOracle)
        ⟨0, by decide⟩).outcome = none :=
  C7 defaultOracle _ (List.mem_map_of_mem _ (List.mem_finRange _))

/-- C8: every chargeback the generator creates ends the run with at least
one associated case event, and a case whose id has no authored evidence
template (and whose category is one of the four generated ones) receives
the generic two-event fallback sequence. -/
theorem C8 :
    (∀ (o : Oracle) (i : Fin 23),
        1 ≤ (seededDB o).case_events.countP (fun e =>
          e.chargeback_id = (caseSpecs.get ⟨i.val, i.isLt⟩).chargeback_id)) ∧
    (∀ s : CaseSpec, lookupTypes case_evidence s.chargeback_id = none →
        (s.fraud_type = "true_fraud" ∨ s.fraud_type = "friendly_fraud" ∨
         s.fraud_type = "merchant_error" ∨ s.fraud_type = "not_guilty") →
        (eventTypesFor s).length = 2) := by
  constructor
  · intro o i
    have hA : ∀ s ∈ caseSpecs, 1 ≤ (eventTypesFor s).length := by decide
    have hlen : 1 ≤ (eventsFor o i).length := by
      simpa [eventsFor] using hA _ (caseSpecs.get_mem _ _)
    rcases hne : eventsFor o i with _ | ⟨e, rest⟩
    · rw [hne] at hlen; simp at hlen
    · have hin : e ∈ eventsFor o i := by rw [hne]; exact List.Mem.head _
      have hmem : e ∈ (seededDB o).case_events :=
        List.mem_flatten_of_mem
          (List.mem_map_of_mem _ (List.mem_finRange i)) hin
      have hid : e.chargeback_id =
          (caseSpecs.get ⟨i.val, i.isLt⟩).chargeback_id := by
        have hin2 := hin
        simp only [eventsFor] at hin2
        obtain ⟨p, -, rfl⟩ := List.mem_map.mp hin2
        rfl
      exact List.countP_pos_iff.mpr ⟨e, hmem, by simp [hid]⟩
  · intro s h1 h2
    simp only [eventTypesFor, h1, Option.getD_none, List.isEmpty_nil,
      if_true]
    rcases h2 with h | h | h | h <;> rw [h] <;> rfl

/-- C8 witness: the fallback branch on a concrete case record with no
authored template. -/
theorem C8_witness :
    lookupTypes case_evidence fallbackProbe.chargeback_id = none ∧
    fallbackProbe.fraud_type = "true_fraud" ∧
    (eventTypesFor fallbackProbe).length = 2 :=
  ⟨by decide, rfl, C8.2 fallbackProbe (by decide) (Or.inl rfl)⟩

/-- C9 counterexample: case 7 (cb_007) is a merchant-error case yet its
chargeback is written with status `open` and null outcome — it is not
resolved `lost`. -/
theorem C9_counterexample :
    (caseSpecs.get ⟨6, by decide⟩).fraud_type = "merchant_error" ∧
    (caseChargeback defaultOracle (normalTxCount defaultOracle)
        ⟨6, by decide⟩).chargeback_id = "cb_007" ∧
    (caseChargeback defaultOracle (normalTxCount defaultOracle)
        ⟨6, by decide⟩).status = "open" ∧
    (caseChargeback defaultOracle (normalTxCount defaultOracle)
        ⟨6, by decide⟩).outcome = none ∧
    caseChargeback defaultOracle (normalTxCount defaultOracle)
        ⟨6, by decide⟩ ∈ (seededDB defaultOracle).chargebacks :=
  ⟨rfl, rfl, rfl, rfl,
   List.mem_map_of_mem _ (List.mem_finRange _)⟩

/-- C9 amended: every merchant-error case is either one of the first two
(cb_007, cb_008), which are left `open` with null outcome, or is resolved
`lost` with outcome `lost`. -/
theorem C9_amended (o : Oracle) (i : Fin 23)
    (h : (caseSpecs.get ⟨i.val, i.isLt⟩).fraud_type = "merchant_error") :
    ((caseChargeback o (normalTxCount o) i).chargeback_id = "cb_007" ∨
       (caseChargeback o (normalTxCount o) i).chargeback_id = "cb_008") ∧
      (caseChargeback o (normalTxCount o) i).status = "open" ∧
      (caseChargeback o (normalTxCount o) i).outcome = none ∨
    (caseChargeback o (normalTxCount o) i).status = "lost" ∧
      (caseChargeback o (normalTxCount o) i).outcome = some "lost" := by
  have key : ∀ s ∈ caseSpecs, s.fraud_type = "merchant_error" →
      ((s.chargeback_id = "cb_007" ∨ s.chargeback_id = "cb_008") ∧
        s.status = "open" ∧ s.outcome = none) ∨
      (s.status = "lost" ∧ s.outcome = some "lost") := by decide
  simpa [caseChargeback] using key _ (caseSpecs.get_mem _ _) h

/-- C9 witness: the amended theorem at the resolved merchant-error case
cb_021. -/
theorem C9_amended_witness :
    (caseSpecs.get ⟨20, by decide⟩).fraud_type = "merchant_error" ∧
    (((caseChargeback defaultOracle (normalTxCount defaultOracle)
          ⟨20, by decide⟩).chargeback_id = "cb_007" ∨
        (caseChargeback defaultOracle (normalTxCount defaultOracle)
          ⟨20, by decide⟩).chargeback_id = "cb_008") ∧
      (caseChargeback defaultOracle (normalTxCount defaultOracle)
          ⟨20, by decide⟩).status = "open" ∧
      (caseChargeback defaultOracle (normalTxCount defaultOracle)
          ⟨20, by decide⟩).outcome = none ∨
      (caseChargeback defaultOracle (normalTxCount defaultOracle)
          ⟨20, by decide⟩).status = "lost" ∧
        (caseChargeback defaultOracle (normalTxCount defaultOracle)
          ⟨20, by decide⟩).outcome = some "lost") :=
  ⟨by decide, C9_amended defaultOracle ⟨20, by decide⟩ (by decide)⟩

set_option maxRecDepth 10000 in
/-- All transaction ids the generator can allocate (numbers 1 through 93)
are pairwise distinct. -/
theorem genId_range93_nodup :
    ((List.range' 1 93).map (fun n => generate_id "txn" n)).Nodup := by
  decide

/-- Distinctness of generated ids over any window within 1..93. -/
theorem genId_range_nodup {s n : Nat} (h1 : 1 ≤ s) (h2 : s + n ≤ 94) :
    ((List.range' s n).map (fun m => generate_id "txn" m)).Nodup := by
  obtain ⟨a, rfl⟩ : ∃ a, s = 1 + a := ⟨s - 1, by omega⟩
  have h3 : List.Sublist (List.range' (1 + a) n)
      (List.range' (1 + a) (93 - a)) :=
    List.range'_sublist_right.mpr (by omega)
  have h4 : List.range' 1 a ++ List.range' (1 + a) (93 - a) =
      List.range' 1 93 := by
    rw [List.range'_append_1]
    congr 1
    omega
  have hsub : List.Sublist (List.range' (1 + a) n) (List.range' 1 93) :=
    h4 ▸ h3.trans (List.sublist_append_right _ _)
  exact genId_range93_nodup.sublist (hsub.map _)

/-- The ids of a normal-transaction block are the consecutive window of
generated ids starting at the running counter. -/
theorem buildNormal_ids (o : Oracle) :
    ∀ (l : List (Nat × String)) (s : Nat),
      (buildNormal o l s).map (fun t => t.transaction_id) =
        (List.range' s (sumCounts l)).map (fun n => generate_id "txn" n) := by
  intro l
  induction l with
  | nil => intro s; rfl
  | cons hd tl ih =>
    intro s
    obtain ⟨cnt, cid⟩ := hd
    have hblock : ((List.range cnt).map
          (fun j => mkNormalTx o (s + j) cid)).map
          (fun t => t.transaction_id) =
        (List.range' s cnt).map (fun n => generate_id "txn" n) := by
      rw [List.range'_eq_map_range, List.map_map, List.map_map]
      rfl
    simp only [buildNormal, List.map_append, hblock, ih]
    rw [← List.map_append, List.range'_append_1,
      Nat.add_comm (sumCounts tl) cnt]
    simp [sumCounts]

/-- The 23 case transactions carry the next 23 consecutive ids. -/
theorem caseTxs_ids (o : Oracle) (k : Nat) :
    (caseTxs o k).map (fun t => t.transaction_id) =
      (List.range' (k + 1) 23).map (fun n => generate_id "txn" n) := rfl

/-- The 23 chargebacks reference exactly those 23 case-transaction ids. -/
theorem seedChargebacks_ids (o : Oracle) (k : Nat) :
    (seedChargebacks o k).map (fun cb => cb.transaction_id) =
      (List.range' (k + 1) 23).map (fun n => generate_id "txn" n) := rfl

theorem sumCounts_le (l : List (Nat × String)) (b : Nat)
    (h : ∀ p ∈ l, p.1 ≤ b) : sumCounts l ≤ b * l.length := by
  induction l with
  | nil => simp [sumCounts]
  | cons hd tl ih =>
    have h1 := h hd (List.mem_cons_self _ _)
    have h2 := ih (fun p hp => h p (List.mem_cons_of_mem _ hp))
    simp only [sumCounts, List.map_cons, List.sum_cons,
      List.length_cons] at *
    calc hd.1 + (tl.map (fun p => p.1)).sum
        ≤ b + b * tl.length := Nat.add_le_add h1 h2
      _ = b * (tl.length + 1) := by ring

/-- Each customer draws at most 10 normal transactions, so the counter
after the normal loop is at most 70. -/
theorem normalTxCount_le (o : Oracle) : normalTxCount o ≤ 70 := by
  have h : ∀ p ∈ customerCounts o, p.1 ≤ 10 := by
    intro p hp
    obtain ⟨i, -, rfl⟩ := List.mem_map.mp hp
    have hv := (o.numNormalTx i).isLt
    show 5 + (o.numNormalTx i).val ≤ 10
    omega
  have hlen : (customerCounts o).length = 7 := by
    simp [customerCounts]
  calc normalTxCount o = sumCounts (customerCounts o) := rfl
    _ ≤ 10 * (customerCounts o).length := sumCounts_le _ _ h
    _ = 70 := by rw [hlen]

/-- All transaction ids in the seeded store are pairwise distinct. -/
theorem seededDB_tx_ids (o : Oracle) :
    (seededDB o).transactions.map (fun t => t.transaction_id) =
      (List.range' 1 (normalTxCount o + 23)).map
        (fun n => generate_id "txn" n) := by
  have h1 := buildNormal_ids o (customerCounts o) 1
  have h2 := caseTxs_ids o (normalTxCount o)
  have h3 : (seededDB o).transactions =
      normalTxs o ++ caseTxs o (normalTxCount o) := rfl
  rw [h3, List.map_append, show normalTxs o =
    buildNormal o (customerCounts o) 1 from rfl, h1, h2, ← List.map_append,
    show normalTxCount o + 1 = 1 + normalTxCount o from by omega,
    show sumCounts (customerCounts o) = normalTxCount o from rfl,
    List.range'_append_1, Nat.add_comm 23 (normalTxCount o)]

theorem seededDB_tx_nodup (o : Oracle) :
    ((seededDB o).transactions.map (fun t => t.transaction_id)).Nodup := by
  rw [seededDB_tx_ids]
  exact genId_range_nodup (by omega)
    (by have := normalTxCount_le o; omega)

/-- With pairwise-distinct transaction ids, the SQL pair count of one
chargeback against the transactions table collapses to a primary-key
lookup. -/
theorem countP_eq_find_indicator (x cid : String) :
    ∀ (l : List Transaction),
      (l.map (fun t => t.transaction_id)).Nodup →
      l.countP (fun t => t.transaction_id = x && t.customer_id = cid) =
        (match l.find? (fun t => t.transaction_id = x) with
         | some t => if t.customer_id = cid then 1 else 0
         | none => 0) := by
  intro l
  induction l with
  | nil => intro _; rfl
  | cons hd tl ih =>
    intro hnd
    rw [List.map_cons, List.nodup_cons] at hnd
    by_cases hx : hd.transaction_id = x
    · have htl : tl.countP
          (fun t => t.transaction_id = x && t.customer_id = cid) = 0 := by
        apply List.countP_eq_zero.mpr
        intro t ht
        have hne : t.transaction_id ≠ x := by
          intro he
          exact hnd.1 (hx ▸ he ▸ List.mem_map_of_mem _ ht)
        simp [hne]
      rw [List.find?_cons_of_pos _ (by simp [hx]), List.countP_cons, htl]
      by_cases hc : hd.customer_id = cid <;> simp [hx, hc]
    · rw [List.find?_cons_of_neg _ (by simp [hx]), List.countP_cons]
      simp [hx, ih hnd.2]

theorem sum_map_eq_countP (cbs : List ChargebackRow)
    (f : ChargebackRow → Nat) (p : ChargebackRow → Bool)
    (h : ∀ cb, f cb = if p cb then 1 else 0) :
    (cbs.map f).sum = cbs.countP p := by
  induction cbs with
  | nil => rfl
  | cons hd tl ih =>
    rw [List.map_cons, List.sum_cons, List.countP_cons, ih, h hd]
    omega

/-- On a store whose transaction ids are pairwise distinct, the SQL join
count agrees with the spec-side recomputation by primary-key lookup. -/
theorem sqlJoinCount_eq_recomputed (db : DB)
    (hnd : (db.transactions.map (fun t => t.transaction_id)).Nodup)
    (cid : String) :
    sqlJoinCount db cid = recomputedTotal db cid := by
  unfold sqlJoinCount recomputedTotal
  apply sum_map_eq_countP
  intro cb
  rw [countP_eq_find_indicator _ _ _ hnd]
  rcases hf : db.transactions.find?
      (fun t => t.transaction_id = cb.transaction_id) with _ | t
  · simp [hf]
  · by_cases hc : t.customer_id = cid <;> simp [hf, hc]

/-- C6: after the generator completes, every stored customer's
`total_chargebacks` equals the count of chargebacks whose referenced
transaction belongs to that customer, recomputed independently from the
chargeback/transaction join. -/
theorem applyTotals_customers (db : DB) :
    (applyTotals db).customers = db.customers.map (fun c =>
      if customers_data.any (fun cd => cd.1 = c.customer_id) then
        { c with total_chargebacks := sqlJoinCount db c.customer_id }
      else c) := rfl

theorem recomputedTotal_applyTotals (db : DB) (cid : String) :
    recomputedTotal (applyTotals db) cid = recomputedTotal db cid := rfl

theorem seededDB_eq_applyTotals (o : Oracle) :
    seededDB o = applyTotals (seedBase o) := by
  simp only [seededDB, seedInto, seedBase, emptyDB, List.nil_append]

theorem C6 (o : Oracle) (c : Customer)
    (hc : c ∈ (seededDB o).customers) :
    c.total_chargebacks = recomputedTotal (seededDB o) c.customer_id := by
  rw [seededDB_eq_applyTotals] at hc ⊢
  have hc2 := hc
  rw [applyTotals_customers] at hc2
  obtain ⟨c0, hc0, rfl⟩ := List.mem_map.mp hc2
  have hcond : customers_data.any
      (fun cd => cd.1 = c0.customer_id) = true := by
    simp only [seedBase, seedCustomers] at hc0
    obtain ⟨i, -, rfl⟩ := List.mem_map.mp hc0
    apply List.any_eq_true.mpr
    exact ⟨customers_data.get ⟨i.val, i.isLt⟩, List.get_mem _ _ _,
      by simp⟩
  rw [if_pos hcond, recomputedTotal_applyTotals]
  show sqlJoinCount (seedBase o) c0.customer_id =
    recomputedTotal (seedBase o) c0.customer_id
  exact sqlJoinCount_eq_recomputed (seedBase o) (seededDB_tx_nodup o) _

/-- C6 witness: the theorem applied to the first stored customer of a
concrete run. -/
theorem C6_witness :
    ((seededDB defaultOracle).customers.get
        ⟨0, by decide⟩).total_chargebacks =
      recomputedTotal (seededDB defaultOracle)
        ((seededDB defaultOracle).customers.get
          ⟨0, by decide⟩).customer_id :=
  C6 defaultOracle _ (List.get_mem _ _ _)

/-- C10: running the generator on any initialized store first deletes every
row of all five tables, children before parents, then writes the fixed
dataset: the result is independent of the prior contents and holds exactly
4 merchants, 7 customers and 23 chargebacks, each chargeback referencing a
distinct transaction. -/
theorem C10 (db : DB) (o : Oracle) :
    seed_database (some db) o = some (seededDB o) ∧
    seedDeleteOrder =
      ["case_events", "chargebacks", "transactions", "customers",
       "merchants"] ∧
    clearTables db = emptyDB ∧
    (seededDB o).merchants.length = 4 ∧
    (seededDB o).customers.length = 7 ∧
    (seededDB o).chargebacks.length = 23 ∧
    ((seededDB o).chargebacks.map (fun cb => cb.transaction_id)).Nodup := by
  refine ⟨rfl, rfl, rfl, rfl, rfl, rfl, ?_⟩
  show ((seedChargebacks o (normalTxCount o)).map
    (fun cb => cb.transaction_id)).Nodup
  rw [seedChargebacks_ids]
  exact genId_range_nodup (by omega)
    (by have := normalTxCount_le o; omega)

end Chargebacks
